import Mathlib

/-!
# Verification development for `hana_mcp_server.py`

A shallow embedding of the single source file `src/hana_mcp_server.py` of the
`hana-mcp-server` repository, together with theorems settling the spec claims.

The source wires four tool operations (`list_schemas`, `list_tables`,
`describe_table`, `run_sql`) to a SAP HANA database through the `hdbcli`
DB-API driver.  Each operation is a straight-line Python function:

  conn = connect_hana()            -- may raise; OUTSIDE the try block
  cursor = conn.cursor()           -- may raise; OUTSIDE the try block
  try:     ...body...              -- execute / fetch / encode / commit
  except Exception as e: return "<prefixed error>: {e}"
  finally:
      try: cursor.close()
      finally: conn.close()

The embedding models one invocation against an oracle (`Behavior`) that fixes
the outcome of every driver call (connect, cursor creation, execute, the
cursor `description` attribute, fetchall, rowcount, commit, the two closes).
Each operation is a total Lean function from the oracle to
`Except Exc Reply × List Ev`:
* `.error e` models a Python exception propagating out of the tool function,
  `.ok r` models a normal `return`;
* `Reply` models the returned string: `Reply.json j` stands for
  `json.dumps(j, indent=2, default=json_default)` of the payload `j`, and
  `Reply.errorMsg s` for the human-readable f-string `s`;
* the `List Ev` component is the trace of driver calls actually made,
  used to state resource (open/close), commit, and parameter-binding claims.

Python's `json.dumps(..., default=json_default)` and the `json_default`
function of source lines 11-16 are embedded over a `PyObj` universe of the
driver-supplied cell values.  `decimal.Decimal` to `float` conversion
(`float(obj)`, line 15) is embedded as exact round-to-nearest-even into the
IEEE-754 binary64 representable rationals (`floatOfRat`), and we prove that
this rounding really does return a nearest representable value (`Frep`).
-/

/-- A Python exception, identified by the text that `f"{e}"` interpolates. -/
inductive Exc where
  | exc (msg : String)
deriving DecidableEq

/-- The message carried by an exception. -/
def Exc.msg : Exc → String
  | .exc m => m

/-! ## Binary64 values and round-to-nearest-even

`float(decimal.Decimal(...))` in CPython performs a correctly rounded
(round-to-nearest, ties-to-even) conversion to IEEE-754 binary64, with
overflow going to the infinities.  We embed binary64 values by their exact
rational value (`FloatVal.finite q`) plus the two infinities; NaN is not
reachable from a finite decimal. -/

/-- A Python `float` (IEEE-754 binary64) value, represented exactly. -/
inductive FloatVal where
  | finite (q : ℚ)
  | inf
  | negInf
deriving DecidableEq

/-- Round a rational to an integer, round-half-to-even (banker's rounding),
the rounding CPython uses when converting a `Decimal` to the binary64 grid. -/
def rne (x : ℚ) : ℤ :=
  if x - ⌊x⌋ < 1/2 then ⌊x⌋
  else if (1:ℚ)/2 < x - ⌊x⌋ then ⌊x⌋ + 1
  else if ⌊x⌋ % 2 = 0 then ⌊x⌋ else ⌊x⌋ + 1

/-- The largest finite binary64 value, `(2^53 - 1) * 2^971`. -/
def maxFin : ℚ := (2 ^ 53 - 1) * 2 ^ (971 : ℕ)

/-- Round-to-nearest-even conversion of a rational into binary64:
pick the scale `s` of the unit in the last place from the binade of `q`
(clamped at the subnormal scale `2^(-1074)`), round onto the grid `2^s * ℤ`,
and overflow to the infinities beyond `maxFin`.  This is the exact value
semantics of CPython's `float(Decimal(...))`. -/
def floatOfRat (q : ℚ) : FloatVal :=
  if q = 0 then .finite 0
  else
    let e := Int.log 2 |q|
    let s := max (e - 52) (-1074)
    let r := (rne (q / 2 ^ s) : ℚ) * 2 ^ s
    if maxFin < r then .inf
    else if r < -maxFin then .negInf
    else .finite r

/-- The exact rational values representable as finite IEEE-754 binary64
numbers: `m * 2^e` with `|m| ≤ 2^53`, `e ≥ -1074`, magnitude at most
`maxFin`. -/
def Frep (x : ℚ) : Prop :=
  ∃ m e : ℤ, -1074 ≤ e ∧ |m| ≤ 2 ^ 53 ∧ x = (m : ℚ) * 2 ^ e ∧ |x| ≤ maxFin

/-- The rational value of a `decimal.Decimal` with coefficient `m` and
decimal exponent `e`, that is `m * 10^e`. -/
def decVal (m e : ℤ) : ℚ := (m : ℚ) * 10 ^ e

/-! ## Python values appearing in result cells -/

/-- A naive `datetime.datetime` (the driver returns timezone-naive values). -/
structure Datetime where
  year : Nat
  month : Nat
  day : Nat
  hour : Nat
  minute : Nat
  second : Nat
  microsecond : Nat
deriving DecidableEq

/-- A `datetime.date`. -/
structure Date where
  year : Nat
  month : Nat
  day : Nat
deriving DecidableEq

/-- A Python object as it can appear in a fetched row: the JSON-native
scalars, the non-native types `json_default` singles out (datetime, date,
Decimal), and `pyOther r`, an arbitrary other object whose `str()` text is
`r`. -/
inductive PyObj where
  | pyNone
  | pyBool (b : Bool)
  | pyInt (n : ℤ)
  | pyFloat (v : FloatVal)
  | pyStr (s : String)
  | pyDatetime (t : Datetime)
  | pyDate (d : Date)
  | pyDecimal (m : ℤ) (e : ℤ)
  | pyOther (r : String)

/-- A JSON value as produced by the serializer.  Python's `json` module keeps
`int` and `float` distinct, so both carriers appear. -/
inductive Json where
  | null
  | bool (b : Bool)
  | int (n : ℤ)
  | num (v : FloatVal)
  | str (s : String)
  | arr (elems : List Json)
  | obj (fields : List (String × Json))

/-! ## ISO-8601 formatting (`datetime.isoformat`) -/

/-- Zero-pad a natural number to two digits. -/
def pad2 (n : Nat) : String :=
  if n < 10 then "0" ++ toString n else toString n

/-- Zero-pad a natural number to four digits. -/
def pad4 (n : Nat) : String :=
  if n < 10 then "000" ++ toString n
  else if n < 100 then "00" ++ toString n
  else if n < 1000 then "0" ++ toString n
  else toString n

/-- Zero-pad a natural number to six digits (microseconds). -/
def pad6 (n : Nat) : String :=
  if n < 10 then "00000" ++ toString n
  else if n < 100 then "0000" ++ toString n
  else if n < 1000 then "000" ++ toString n
  else if n < 10000 then "00" ++ toString n
  else if n < 100000 then "0" ++ toString n
  else toString n

/-- `datetime.date.isoformat()`: `YYYY-MM-DD`. -/
def isoDate (d : Date) : String :=
  pad4 d.year ++ "-" ++ pad2 d.month ++ "-" ++ pad2 d.day

/-- `datetime.datetime.isoformat()` on a naive value:
`YYYY-MM-DDTHH:MM:SS[.ffffff]`, the microseconds part present exactly when
the microsecond field is nonzero. -/
def isoDatetime (t : Datetime) : String :=
  pad4 t.year ++ "-" ++ pad2 t.month ++ "-" ++ pad2 t.day ++ "T" ++
  pad2 t.hour ++ ":" ++ pad2 t.minute ++ ":" ++ pad2 t.second ++
  (if t.microsecond = 0 then "" else "." ++ pad6 t.microsecond)

/-- Text of Python's `repr`-style rendering of a float.  CPython's
shortest-round-trip decimal rendering is abstracted by a deterministic
rendering here: no reachable code path of the embedded program inspects this
text (`json_default` only applies `str` to objects that are not datetimes,
dates or Decimals, and `json.dumps` serializes floats natively). -/
def floatRepr : FloatVal → String
  | .finite q => toString q
  | .inf => "inf"
  | .negInf => "-inf"

/-- Python `str(obj)` for the objects of our universe.  Only the `pyOther`
case is reachable through `json_default` (the earlier `isinstance` branches
capture datetimes, dates and Decimals); the remaining cases model CPython's
`str` on the other variants. -/
def pyToStr : PyObj → String
  | .pyNone => "None"
  | .pyBool true => "True"
  | .pyBool false => "False"
  | .pyInt n => toString n
  | .pyFloat v => floatRepr v
  | .pyStr s => s
  | .pyDatetime t =>
      pad4 t.year ++ "-" ++ pad2 t.month ++ "-" ++ pad2 t.day ++ " " ++
      pad2 t.hour ++ ":" ++ pad2 t.minute ++ ":" ++ pad2 t.second ++
      (if t.microsecond = 0 then "" else "." ++ pad6 t.microsecond)
  | .pyDate d => isoDate d
  | .pyDecimal m e => toString m ++ "E" ++ toString e
  | .pyOther r => r

/-- Source lines 11-16, the `default=` hook handed to `json.dumps`:
datetimes and dates map to their `isoformat()` string, `Decimal` maps to
`float(obj)` (round-to-nearest binary64), anything else to `str(obj)`. -/
def json_default (obj : PyObj) : PyObj :=
  match obj with
  | .pyDatetime t => .pyStr (isoDatetime t)
  | .pyDate d => .pyStr (isoDate d)
  | .pyDecimal m e => .pyFloat (floatOfRat (decVal m e))
  | o => .pyStr (pyToStr o)

/-- The scalar types `json.dumps` serializes natively, without consulting
the `default=` hook. -/
def serializeAtom : PyObj → Option Json
  | .pyNone => some .null
  | .pyBool b => some (.bool b)
  | .pyInt n => some (.int n)
  | .pyFloat v => some (.num v)
  | .pyStr s => some (.str s)
  | _ => none

/-- `json.dumps` on a single cell value with `default=json_default`:
native scalars serialize directly; otherwise the `default` hook is applied
and its result serialized.  `json.dumps` would keep re-applying the hook (and
eventually fail) if it kept returning non-native objects; `json_default`
always returns a native `str` or `float`, so one application suffices — the
`.error` branch models that residual failure mode of `json.dumps` and is
proved unreachable. -/
def serialize (o : PyObj) : Except String Json :=
  match serializeAtom o with
  | some j => .ok j
  | none =>
    match serializeAtom (json_default o) with
    | some j => .ok j
    | none => .error "Object is not JSON serializable"

/-- Serialize the cells of a list left to right, stopping at the first
failure, as `json.dumps` does for a Python list. -/
def serializeVals : List PyObj → Except String (List Json)
  | [] => .ok []
  | x :: xs =>
    match serialize x with
    | .error e => .error e
    | .ok j =>
      match serializeVals xs with
      | .error e => .error e
      | .ok js => .ok (j :: js)

/-- `json.dumps` of a list of scalar cells, as a JSON array. -/
def serializeList (xs : List PyObj) : Except String Json :=
  match serializeVals xs with
  | .error e => .error e
  | .ok js => .ok (.arr js)

/-- Serialize a list of fetched rows (tuples of cells) into JSON arrays. -/
def serializeRowsAux : List (List PyObj) → Except String (List Json)
  | [] => .ok []
  | r :: rs =>
    match serializeVals r with
    | .error e => .error e
    | .ok js =>
      match serializeRowsAux rs with
      | .error e => .error e
      | .ok rest => .ok (.arr js :: rest)

/-- `json.dumps` of the `rows` component: an array of arrays of cells. -/
def serializeRows (rows : List (List PyObj)) : Except String Json :=
  match serializeRowsAux rows with
  | .error e => .error e
  | .ok js => .ok (.arr js)

/-! ## The driver oracle and the operation trace

A `Behavior` fixes the outcome of every driver call a single invocation can
make.  The Python calls it models, in call order: `load_config` (file
existence, then `json.load`), `dbapi.connect`, `conn.cursor()`,
`cursor.execute`, the `cursor.description` attribute after a successful
execute, `cursor.fetchall()`, `cursor.rowcount`, `conn.commit()`,
`cursor.close()`, `conn.close()`. -/

/-- One entry of `cursor.description`; the source only reads `col[0]`, the
column name, so only that field is embedded. -/
structure ColDesc where
  name : String
deriving DecidableEq

/-- Outcomes of the driver calls a single invocation can make. -/
structure Behavior where
  /-- Does `CONFIG_FILE` exist (`CONFIG_FILE.exists()`, line 20)? -/
  configExists : Bool
  /-- Outcome of `json.load(f)` (line 23). -/
  configParse : Except Exc Unit
  /-- Outcome of `dbapi.connect(...)` (lines 28-36). -/
  connectRes : Except Exc Unit
  /-- Outcome of `conn.cursor()`. -/
  cursorRes : Except Exc Unit
  /-- Outcome of `cursor.execute(...)` for the statement of this call. -/
  executeRes : Except Exc Unit
  /-- `cursor.description` after a successful execute: `none` models Python
  `None` (non-row-returning statement), `some ds` a tuple of descriptors. -/
  description : Option (List ColDesc)
  /-- Outcome of `cursor.fetchall()`. -/
  fetchRes : Except Exc (List (List PyObj))
  /-- `cursor.rowcount` after a successful execute. -/
  rowcount : ℤ
  /-- Outcome of `conn.commit()`. -/
  commitRes : Except Exc Unit
  /-- Outcome of `cursor.close()`. -/
  closeCursor : Except Exc Unit
  /-- Outcome of `conn.close()`. -/
  closeConn : Except Exc Unit

/-- Trace events: the driver calls an invocation performs, in order.
`executeEv` records the SQL text and the bound parameter tuple exactly as
passed to `cursor.execute` (an empty list models the omitted tuple). -/
inductive Ev where
  | loadConfig
  | openConn
  | cursorEv
  | executeEv (sql : String) (params : List String)
  | fetchEv
  | commitEv
  | closeCursorEv
  | closeConnEv

/-- What a tool function hands back to the MCP layer on a normal `return`:
`json j` stands for the string `json.dumps(j, indent=2, default=json_default)`
of a success payload, `errorMsg s` for a prefixed human-readable error
f-string.  Both are strings at the Python level. -/
inductive Reply where
  | json (j : Json)
  | errorMsg (s : String)

/-- Tail of the `CONFIG_FILE` path (`Path(__file__).parent /
"hana_config.json"`, line 8); the absolute prefix depends on the install
location and is irrelevant to every claim. -/
def configFilePath : String := "hana_config.json"

/-- Python `str.upper()`.  The source only uppercases caller-supplied
identifiers; `String.toUpper` agrees with CPython on ASCII identifiers. -/
def pyUpper (s : String) : String := s.toUpper

/-- `load_config()` (lines 19-23): raises `FileNotFoundError` when the
config file is missing, then `json.load`s it (which may raise on malformed
content). -/
def load_config (b : Behavior) : Except Exc Unit × List Ev :=
  if b.configExists then
    match b.configParse with
    | .error e => (.error e, [.loadConfig])
    | .ok _ => (.ok (), [.loadConfig])
  else (.error (.exc ("Config file not found: " ++ configFilePath)), [.loadConfig])

/-- `connect_hana()` (lines 26-36): `load_config()` then `dbapi.connect(...)`,
either of which may raise.  Returns the propagated exception or success, plus
the trace of this prologue. -/
def connect_hana (b : Behavior) : Except Exc Unit × List Ev :=
  match load_config b with
  | (.error e, t) => (.error e, t)
  | (.ok _, t) =>
    match b.connectRes with
    | .error e => (.error e, t)
    | .ok _ => (.ok (), t ++ [.openConn])

/-- The shared `finally` block (e.g. lines 120-124): `cursor.close()` inside
an inner `try`, with `conn.close()` in its `finally`; both calls always
happen, and an exception from `conn.close()` supersedes one from
`cursor.close()`.  Returns the exception escaping the block, if any. -/
def finallyClose (b : Behavior) : Option Exc × List Ev :=
  (match b.closeCursor, b.closeConn with
   | .ok _, .ok _ => none
   | .ok _, .error e2 => some e2
   | .error e1, .ok _ => some e1
   | .error _, .error e2 => some e2,
   [.closeCursorEv, .closeConnEv])

/-- The frame every tool shares (lines 44-56, 61-76, 81-102, 107-124):
`conn = connect_hana()` and `cursor = conn.cursor()` sit OUTSIDE the
`try`, so their exceptions propagate (and a `cursor()` failure skips the
`finally`, leaking the connection); the body runs under
`try/except Exception` and therefore always yields a `Reply`; the `finally`
runs afterwards, its exception (if any) superseding the body's reply. -/
def runTool (b : Behavior) (body : Behavior → Reply × List Ev) :
    Except Exc Reply × List Ev :=
  match connect_hana b with
  | (.error e, t) => (.error e, t)
  | (.ok _, t) =>
    match b.cursorRes with
    | .error e => (.error e, t ++ [.cursorEv])
    | .ok _ =>
      let p := body b
      let f := finallyClose b
      ((match f.fst with
        | some e => .error e
        | none => .ok p.fst),
       t ++ [.cursorEv] ++ p.snd ++ f.snd)

/-- The fixed SQL text of `list_schemas` (line 47). -/
def sqlListSchemas : String :=
  "SELECT SCHEMA_NAME FROM SYS.SCHEMAS ORDER BY SCHEMA_NAME"

/-- The fixed SQL text of `list_tables` (line 65); the schema is bound via
`?`, never interpolated. -/
def sqlListTables : String :=
  "SELECT TABLE_NAME FROM SYS.TABLES WHERE SCHEMA_NAME = ? ORDER BY TABLE_NAME"

/-- The fixed SQL text of `describe_table` (lines 85-90), the triple-quoted
literal verbatim; both identifiers are bound via `?`. -/
def sqlDescribeTable : String :=
  "\n            SELECT COLUMN_NAME, DATA_TYPE_NAME, LENGTH, SCALE, IS_NULLABLE\n            FROM SYS.TABLE_COLUMNS\n            WHERE SCHEMA_NAME = ? AND TABLE_NAME = ?\n            ORDER BY POSITION\n            "

/-- The comprehension `[r[0] for r in rows]` (lines 48, 68): take `r[0]` of
each fetched row left to right; an empty row raises `IndexError`. -/
def firstItems : List (List PyObj) → Except Exc (List PyObj)
  | [] => .ok []
  | r :: rs =>
    match r with
    | [] => .error (.exc "tuple index out of range")
    | x :: _ =>
      match firstItems rs with
      | .error e => .error e
      | .ok rest => .ok (x :: rest)

/-- Body of `list_schemas` (lines 46-51): execute the fixed query with no
parameters, fetch, project the first column, `json.dumps` the list; any
exception becomes the prefixed error string. -/
def list_schemas_body (b : Behavior) : Reply × List Ev :=
  match b.executeRes with
  | .error e => (.errorMsg ("Error listing schemas: " ++ e.msg), [.executeEv sqlListSchemas []])
  | .ok _ =>
    match b.fetchRes with
    | .error e =>
      (.errorMsg ("Error listing schemas: " ++ e.msg), [.executeEv sqlListSchemas [], .fetchEv])
    | .ok rows =>
      match firstItems rows with
      | .error e =>
        (.errorMsg ("Error listing schemas: " ++ e.msg), [.executeEv sqlListSchemas [], .fetchEv])
      | .ok items =>
        match serializeList items with
        | .error e =>
          (.errorMsg ("Error listing schemas: " ++ e), [.executeEv sqlListSchemas [], .fetchEv])
        | .ok j => (.json j, [.executeEv sqlListSchemas [], .fetchEv])

/-- Body of `list_tables` (lines 63-71): the schema argument is uppercased
and passed as the single bound parameter of the fixed query. -/
def list_tables_body (schema : String) (b : Behavior) : Reply × List Ev :=
  match b.executeRes with
  | .error e =>
    (.errorMsg ("Error listing tables for schema " ++ schema ++ ": " ++ e.msg),
     [.executeEv sqlListTables [pyUpper schema]])
  | .ok _ =>
    match b.fetchRes with
    | .error e =>
      (.errorMsg ("Error listing tables for schema " ++ schema ++ ": " ++ e.msg),
       [.executeEv sqlListTables [pyUpper schema], .fetchEv])
    | .ok rows =>
      match firstItems rows with
      | .error e =>
        (.errorMsg ("Error listing tables for schema " ++ schema ++ ": " ++ e.msg),
         [.executeEv sqlListTables [pyUpper schema], .fetchEv])
      | .ok items =>
        match serializeList items with
        | .error e =>
          (.errorMsg ("Error listing tables for schema " ++ schema ++ ": " ++ e),
           [.executeEv sqlListTables [pyUpper schema], .fetchEv])
        | .ok j => (.json j, [.executeEv sqlListTables [pyUpper schema], .fetchEv])

/-- Body of `describe_table` (lines 83-97): both identifiers uppercased and
bound; `cols` is built by iterating `cursor.description` (iterating `None`
raises `TypeError`), the payload is the dict with `columns` and `rows`. -/
def describe_table_body (schema table : String) (b : Behavior) : Reply × List Ev :=
  match b.executeRes with
  | .error e =>
    (.errorMsg ("Error describing table " ++ schema ++ "." ++ table ++ ": " ++ e.msg),
     [.executeEv sqlDescribeTable [pyUpper schema, pyUpper table]])
  | .ok _ =>
    match b.description with
    | none =>
      (.errorMsg ("Error describing table " ++ schema ++ "." ++ table ++
        ": 'NoneType' object is not iterable"),
       [.executeEv sqlDescribeTable [pyUpper schema, pyUpper table]])
    | some ds =>
      match b.fetchRes with
      | .error e =>
        (.errorMsg ("Error describing table " ++ schema ++ "." ++ table ++ ": " ++ e.msg),
         [.executeEv sqlDescribeTable [pyUpper schema, pyUpper table], .fetchEv])
      | .ok rows =>
        match serializeRows rows with
        | .error e =>
          (.errorMsg ("Error describing table " ++ schema ++ "." ++ table ++ ": " ++ e),
           [.executeEv sqlDescribeTable [pyUpper schema, pyUpper table], .fetchEv])
        | .ok rowsJson =>
          (.json (.obj [("columns", .arr ((ds.map ColDesc.name).map Json.str)),
                        ("rows", rowsJson)]),
           [.executeEv sqlDescribeTable [pyUpper schema, pyUpper table], .fetchEv])

/-- Body of `run_sql` (lines 109-119): execute the caller's statement
verbatim with no parameters; `if cursor.description:` is Python truthiness,
so both `None` and an empty tuple take the mutation branch, which commits and
reports `f"{cursor.rowcount} rows affected."`; a non-empty description takes
the row branch. -/
def run_sql_body (query : String) (b : Behavior) : Reply × List Ev :=
  match b.executeRes with
  | .error e => (.errorMsg ("SQL Error: " ++ e.msg), [.executeEv query []])
  | .ok _ =>
    match b.description with
    | some (c :: cs) =>
      match b.fetchRes with
      | .error e => (.errorMsg ("SQL Error: " ++ e.msg), [.executeEv query [], .fetchEv])
      | .ok rows =>
        match serializeRows rows with
        | .error e => (.errorMsg ("SQL Error: " ++ e), [.executeEv query [], .fetchEv])
        | .ok rowsJson =>
          (.json (.obj [("columns", .arr (((c :: cs).map ColDesc.name).map Json.str)),
                        ("rows", rowsJson)]),
           [.executeEv query [], .fetchEv])
    | _ =>
      match b.commitRes with
      | .error e => (.errorMsg ("SQL Error: " ++ e.msg), [.executeEv query [], .commitEv])
      | .ok _ =>
        (.json (.obj [("message", .str (toString b.rowcount ++ " rows affected."))]),
         [.executeEv query [], .commitEv])

/-- The tool `list_schemas` (lines 41-56). -/
def list_schemas (b : Behavior) : Except Exc Reply × List Ev :=
  runTool b list_schemas_body

/-- The tool `list_tables` (lines 58-76). -/
def list_tables (schema : String) (b : Behavior) : Except Exc Reply × List Ev :=
  runTool b (list_tables_body schema)

/-- The tool `describe_table` (lines 78-102). -/
def describe_table (schema table : String) (b : Behavior) : Except Exc Reply × List Ev :=
  runTool b (describe_table_body schema table)

/-- The tool `run_sql` (lines 104-124). -/
def run_sql (query : String) (b : Behavior) : Except Exc Reply × List Ev :=
  runTool b (run_sql_body query)

/-- A named tool invocation with its arguments, as dispatched by the MCP
layer. -/
inductive ToolCall where
  | listSchemas
  | listTables (schema : String)
  | describeTable (schema table : String)
  | runSql (query : String)

/-- Dispatch a tool invocation to the corresponding source function. -/
def dispatch : ToolCall → Behavior → Except Exc Reply × List Ev
  | .listSchemas, b => list_schemas b
  | .listTables schema, b => list_tables schema b
  | .describeTable schema table, b => describe_table schema table b
  | .runSql query, b => run_sql query b

/-! ## Trace observations -/

/-- Number of `dbapi.connect` successes (connections opened) in a trace. -/
def countOpens : List Ev → Nat
  | [] => 0
  | .openConn :: t => countOpens t + 1
  | _ :: t => countOpens t

/-- Number of `conn.close()` calls in a trace. -/
def countCloses : List Ev → Nat
  | [] => 0
  | .closeConnEv :: t => countCloses t + 1
  | _ :: t => countCloses t

/-- Number of `conn.commit()` calls in a trace. -/
def countCommits : List Ev → Nat
  | [] => 0
  | .commitEv :: t => countCommits t + 1
  | _ :: t => countCommits t

/-- Number of `load_config()` calls in a trace. -/
def countLoads : List Ev → Nat
  | [] => 0
  | .loadConfig :: t => countLoads t + 1
  | _ :: t => countLoads t

/-- The `cursor.execute` calls of a trace: SQL text and bound parameters, in
call order. -/
def execCalls : List Ev → List (String × List String)
  | [] => []
  | .executeEv s p :: t => (s, p) :: execCalls t
  | _ :: t => execCalls t

/-- Event `a` occurs strictly before event `c` somewhere in the trace. -/
def beforeIn (a c : Ev) (t : List Ev) : Prop :=
  ∃ l1 l2 l3, t = l1 ++ a :: l2 ++ c :: l3

/-- The connection prologue succeeds: the config file exists and parses, and
`dbapi.connect` succeeds. -/
def connOk (b : Behavior) : Prop :=
  b.configExists = true ∧ b.configParse = .ok () ∧ b.connectRes = .ok ()

/-! ## Structural lemmas about the shared frame -/

theorem connect_hana_ok {b : Behavior} (h : connOk b) :
    connect_hana b = (.ok (), [.loadConfig, .openConn]) := by
  obtain ⟨h1, h2, h3⟩ := h
  unfold connect_hana load_config
  rw [h1, h2, h3]
  rfl

theorem runTool_fst_ok {b : Behavior} (body : Behavior → Reply × List Ev)
    (h : connOk b) (h2 : b.cursorRes = .ok ())
    (h3 : b.closeCursor = .ok ()) (h4 : b.closeConn = .ok ()) :
    (runTool b body).fst = .ok (body b).fst := by
  unfold runTool finallyClose
  rw [connect_hana_ok h, h2, h3, h4]

theorem runTool_trace {b : Behavior} (body : Behavior → Reply × List Ev)
    (h : connOk b) (h2 : b.cursorRes = .ok ()) :
    (runTool b body).snd =
      [.loadConfig, .openConn, .cursorEv] ++ (body b).snd ++
        [.closeCursorEv, .closeConnEv] := by
  unfold runTool finallyClose
  rw [connect_hana_ok h, h2]
  simp

theorem countOpens_append (l1 l2 : List Ev) :
    countOpens (l1 ++ l2) = countOpens l1 + countOpens l2 := by
  induction l1 with
  | nil => simp [countOpens]
  | cons x t ih =>
    cases x
    all_goals simp [countOpens, ih]
    all_goals omega

theorem countCloses_append (l1 l2 : List Ev) :
    countCloses (l1 ++ l2) = countCloses l1 + countCloses l2 := by
  induction l1 with
  | nil => simp [countCloses]
  | cons x t ih =>
    cases x
    all_goals simp [countCloses, ih]
    all_goals omega

theorem countCommits_append (l1 l2 : List Ev) :
    countCommits (l1 ++ l2) = countCommits l1 + countCommits l2 := by
  induction l1 with
  | nil => simp [countCommits]
  | cons x t ih =>
    cases x
    all_goals simp [countCommits, ih]
    all_goals omega

theorem countLoads_append (l1 l2 : List Ev) :
    countLoads (l1 ++ l2) = countLoads l1 + countLoads l2 := by
  induction l1 with
  | nil => simp [countLoads]
  | cons x t ih =>
    cases x
    all_goals simp [countLoads, ih]
    all_goals omega

theorem execCalls_append (l1 l2 : List Ev) :
    execCalls (l1 ++ l2) = execCalls l1 ++ execCalls l2 := by
  induction l1 with
  | nil => simp [execCalls]
  | cons x t ih => cases x <;> simp [execCalls, ih]

/-- No tool body opens a connection: bodies only execute, fetch and commit. -/
theorem countOpens_list_schemas_body (b : Behavior) :
    countOpens (list_schemas_body b).snd = 0 := by
  unfold list_schemas_body
  repeat' split
  all_goals rfl

theorem countOpens_list_tables_body (schema : String) (b : Behavior) :
    countOpens (list_tables_body schema b).snd = 0 := by
  unfold list_tables_body
  repeat' split
  all_goals rfl

theorem countOpens_describe_table_body (schema table : String) (b : Behavior) :
    countOpens (describe_table_body schema table b).snd = 0 := by
  unfold describe_table_body
  repeat' split
  all_goals rfl

theorem countOpens_run_sql_body (query : String) (b : Behavior) :
    countOpens (run_sql_body query b).snd = 0 := by
  unfold run_sql_body
  repeat' split
  all_goals rfl

/-- No tool body closes a connection: the closes happen in the `finally`. -/
theorem countCloses_list_schemas_body (b : Behavior) :
    countCloses (list_schemas_body b).snd = 0 := by
  unfold list_schemas_body
  repeat' split
  all_goals rfl

theorem countCloses_list_tables_body (schema : String) (b : Behavior) :
    countCloses (list_tables_body schema b).snd = 0 := by
  unfold list_tables_body
  repeat' split
  all_goals rfl

theorem countCloses_describe_table_body (schema table : String) (b : Behavior) :
    countCloses (describe_table_body schema table b).snd = 0 := by
  unfold describe_table_body
  repeat' split
  all_goals rfl

theorem countCloses_run_sql_body (query : String) (b : Behavior) :
    countCloses (run_sql_body query b).snd = 0 := by
  unfold run_sql_body
  repeat' split
  all_goals rfl

/-- No tool body reloads the config: `load_config` runs only in the prologue. -/
theorem countLoads_list_schemas_body (b : Behavior) :
    countLoads (list_schemas_body b).snd = 0 := by
  unfold list_schemas_body
  repeat' split
  all_goals rfl

theorem countLoads_list_tables_body (schema : String) (b : Behavior) :
    countLoads (list_tables_body schema b).snd = 0 := by
  unfold list_tables_body
  repeat' split
  all_goals rfl

theorem countLoads_describe_table_body (schema table : String) (b : Behavior) :
    countLoads (describe_table_body schema table b).snd = 0 := by
  unfold describe_table_body
  repeat' split
  all_goals rfl

theorem countLoads_run_sql_body (query : String) (b : Behavior) :
    countLoads (run_sql_body query b).snd = 0 := by
  unfold run_sql_body
  repeat' split
  all_goals rfl

/-- Each invocation reaching the `try` block opens exactly one connection and
calls `conn.close()` exactly once, whatever the body does. -/
theorem counts_runTool {b : Behavior} (body : Behavior → Reply × List Ev)
    (h1 : connOk b) (h2 : b.cursorRes = .ok ())
    (ho : countOpens (body b).snd = 0) (hc : countCloses (body b).snd = 0) :
    countOpens (runTool b body).snd = 1 ∧ countCloses (runTool b body).snd = 1 := by
  rw [runTool_trace body h1 h2, countOpens_append, countOpens_append,
    countCloses_append, countCloses_append, ho, hc]
  constructor <;> rfl

/-- `load_config()` is called exactly once per invocation, on every path. -/
theorem countLoads_runTool (b : Behavior) (body : Behavior → Reply × List Ev)
    (h : countLoads (body b).snd = 0) : countLoads (runTool b body).snd = 1 := by
  unfold runTool connect_hana load_config finallyClose
  rcases b with ⟨cfgE, cfgP, cRes, cur, exe, desc, fet, rc, com, clC, clK⟩
  cases cfgE <;> cases cfgP <;> cases cRes <;> cases cur <;>
    simp_all [countLoads, countLoads_append]

/-- A missing config file makes the whole tool call raise
`FileNotFoundError`, since `connect_hana()` runs outside the `try`. -/
theorem runTool_fst_noConfig {b : Behavior} (body : Behavior → Reply × List Ev)
    (h : b.configExists = false) :
    (runTool b body).fst =
      .error (.exc ("Config file not found: " ++ configFilePath)) := by
  unfold runTool connect_hana load_config
  rw [h]
  rfl

/-! ## Concrete driver behaviors for witnesses and counterexamples -/

/-- A fully successful mutation-shaped invocation: everything succeeds, the
statement returns no descriptor, zero rows affected. -/
def okBehavior : Behavior :=
  { configExists := true, configParse := .ok (), connectRes := .ok (),
    cursorRes := .ok (), executeRes := .ok (), description := none,
    fetchRes := .ok [], rowcount := 0, commitRes := .ok (),
    closeCursor := .ok (), closeConn := .ok () }

/-- `dbapi.connect` fails (network/authentication failure). -/
def bConnFail : Behavior := { okBehavior with connectRes := .error (.exc "Connection refused") }

/-- `conn.cursor()` fails after a successful connect. -/
def bCursorFail : Behavior := { okBehavior with cursorRes := .error (.exc "connection lost") }

/-- The config file is missing. -/
def bNoConfig : Behavior := { okBehavior with configExists := false }

/-- The mock backend of the spec scenario: `fetchall` returns the rows
`[("SYS",), ("PUBLIC",)]`. -/
def bSchemas : Behavior :=
  { okBehavior with
    description := some [⟨"SCHEMA_NAME"⟩]
    fetchRes := .ok [[.pyStr "SYS"], [.pyStr "PUBLIC"]] }

/-- A `run_sql` mutation reported as affecting 3 rows. -/
def bMutation : Behavior := { okBehavior with rowcount := 3 }

/-- A row-returning statement with a one-column descriptor and no rows. -/
def bSelectEmpty : Behavior :=
  { okBehavior with
    description := some [⟨"A"⟩]
    fetchRes := .ok [] }

/-- `describe_table` against a table with zero matching catalog columns: the
fixed five-column introspection SELECT still carries its five descriptors,
and `fetchall` returns no rows. -/
def bDescribeEmpty : Behavior :=
  { okBehavior with
    description := some [⟨"COLUMN_NAME"⟩, ⟨"DATA_TYPE_NAME"⟩, ⟨"LENGTH"⟩,
      ⟨"SCALE"⟩, ⟨"IS_NULLABLE"⟩]
    fetchRes := .ok [] }

/-- `cursor.execute` raises (malformed SQL). -/
def bExecFail : Behavior := { okBehavior with executeRes := .error (.exc "sql syntax error") }

/-! ## Claim C1 -/

/-- C1 counterexample: the claim says no exception arising during an
invocation — including connection/authentication failure — propagates to the
caller.  But `conn = connect_hana()` (line 107) runs before the `try`, so a
`dbapi.connect` failure propagates out of `run_sql` instead of being returned
as a string. -/
theorem connect_failure_propagates :
    (dispatch (.runSql "SELECT 1 FROM DUMMY") bConnFail).fst =
      .error (.exc "Connection refused") := rfl

/-- C1 (amended): whenever the pre-`try` prologue (config load, connect,
cursor creation) and the two `finally` close calls succeed, every one of the
four operations returns a string — a JSON payload or a prefixed error
message — for every outcome of statement execution, fetching, encoding and
commit; exceptions of the prologue and of the close calls propagate. -/
theorem tool_reply_when_prologue_and_closes_succeed :
    ∀ (t : ToolCall) (b : Behavior), connOk b → b.cursorRes = .ok () →
      b.closeCursor = .ok () → b.closeConn = .ok () →
      ∃ r : Reply, (dispatch t b).fst = .ok r := by
  intro t b h1 h2 h3 h4
  cases t <;> exact ⟨_, runTool_fst_ok _ h1 h2 h3 h4⟩

/-- C1 witness: the amended theorem applied to a concrete successful
behavior. -/
theorem tool_reply_witness :
    ∃ r : Reply, (dispatch .listSchemas okBehavior).fst = .ok r :=
  tool_reply_when_prologue_and_closes_succeed .listSchemas okBehavior
    ⟨rfl, rfl, rfl⟩ rfl rfl rfl

/-! ## Claim C2 -/

/-- C2 counterexample: the claim says every opened connection is closed on
every exit path.  But `cursor = conn.cursor()` (line 108) also runs before
the `try`: when it raises after a successful connect, the `finally` block is
never entered and the connection leaks — one open, zero closes — while the
exception propagates. -/
theorem cursor_failure_leaks_connection :
    countOpens (dispatch (.runSql "SELECT 1 FROM DUMMY") bCursorFail).snd = 1 ∧
    countCloses (dispatch (.runSql "SELECT 1 FROM DUMMY") bCursorFail).snd = 0 ∧
    (dispatch (.runSql "SELECT 1 FROM DUMMY") bCursorFail).fst =
      .error (.exc "connection lost") :=
  ⟨rfl, rfl, rfl⟩

/-- C2 (amended): on every invocation that reaches the `try` block (i.e.
connect and cursor creation both succeeded), the connection is opened exactly
once and `conn.close()` is called exactly once, on every exit path —
regardless of whether execution, fetching, encoding or commit succeed or
raise, and regardless of the close outcomes themselves.  Only a `cursor()`
failure after a successful connect escapes this discipline. -/
theorem connection_closed_once_after_cursor_ok :
    ∀ (t : ToolCall) (b : Behavior), connOk b → b.cursorRes = .ok () →
      countOpens (dispatch t b).snd = 1 ∧ countCloses (dispatch t b).snd = 1 := by
  intro t b h1 h2
  cases t with
  | listSchemas =>
    exact counts_runTool _ h1 h2 (countOpens_list_schemas_body b)
      (countCloses_list_schemas_body b)
  | listTables schema =>
    exact counts_runTool _ h1 h2 (countOpens_list_tables_body schema b)
      (countCloses_list_tables_body schema b)
  | describeTable schema table =>
    exact counts_runTool _ h1 h2 (countOpens_describe_table_body schema table b)
      (countCloses_describe_table_body schema table b)
  | runSql query =>
    exact counts_runTool _ h1 h2 (countOpens_run_sql_body query b)
      (countCloses_run_sql_body query b)

/-- C2 witness: balanced open/close on a concrete failing execution. -/
theorem connection_closed_once_witness :
    countOpens (dispatch (.runSql "DELETE FROM t") bExecFail).snd = 1 ∧
    countCloses (dispatch (.runSql "DELETE FROM t") bExecFail).snd = 1 :=
  connection_closed_once_after_cursor_ok (.runSql "DELETE FROM t") bExecFail
    ⟨rfl, rfl, rfl⟩ rfl

/-! ## Claim C4 -/

/-- C4: a `run_sql` statement with no column descriptor is treated as a
mutation: the transaction is committed explicitly, the commit happens before
`conn.close()`, and the reply encodes the driver-reported affected-row count
as the `message` payload `"<rowcount> rows affected."`. -/
theorem run_sql_mutation_commits_and_reports :
    ∀ (b : Behavior) (q : String), connOk b → b.cursorRes = .ok () →
      b.executeRes = .ok () → b.description = none → b.commitRes = .ok () →
      b.closeCursor = .ok () → b.closeConn = .ok () →
      (dispatch (.runSql q) b).fst =
        .ok (.json (.obj [("message",
          .str (toString b.rowcount ++ " rows affected."))])) ∧
      beforeIn .commitEv .closeConnEv (dispatch (.runSql q) b).snd := by
  intro b q h1 h2 hex hdesc hcom h3 h4
  have hbody : run_sql_body q b =
      (.json (.obj [("message", .str (toString b.rowcount ++ " rows affected."))]),
       [.executeEv q [], .commitEv]) := by
    unfold run_sql_body
    rw [hex, hdesc, hcom]
  constructor
  · show (runTool b (run_sql_body q)).fst = _
    rw [runTool_fst_ok _ h1 h2 h3 h4, hbody]
  · show beforeIn .commitEv .closeConnEv (runTool b (run_sql_body q)).snd
    rw [runTool_trace _ h1 h2, hbody]
    exact ⟨[.loadConfig, .openConn, .cursorEv, .executeEv q []],
      [.closeCursorEv], [], by simp⟩

/-- C4 witness: `run_sql("DELETE FROM t")` with the backend reporting 3
affected rows. -/
theorem run_sql_mutation_witness :
    (dispatch (.runSql "DELETE FROM t") bMutation).fst =
      .ok (.json (.obj [("message",
        .str (toString bMutation.rowcount ++ " rows affected."))])) ∧
    beforeIn .commitEv .closeConnEv
      (dispatch (.runSql "DELETE FROM t") bMutation).snd :=
  run_sql_mutation_commits_and_reports bMutation "DELETE FROM t"
    ⟨rfl, rfl, rfl⟩ rfl rfl rfl rfl rfl rfl

/-! ## Claim C5 -/

/-- C5: `list_tables` and `describe_table` uppercase their identifier
arguments and pass them exclusively as bound statement parameters of the
fixed introspection SQL: the single `cursor.execute` call of every such
invocation carries the constant SQL text (the same for every argument value,
so nothing is interpolated) with the uppercased arguments as the parameter
tuple. -/
theorem introspection_binds_uppercased_params :
    ∀ (schema table : String) (b : Behavior), connOk b → b.cursorRes = .ok () →
      execCalls (dispatch (.listTables schema) b).snd =
        [(sqlListTables, [pyUpper schema])] ∧
      execCalls (dispatch (.describeTable schema table) b).snd =
        [(sqlDescribeTable, [pyUpper schema, pyUpper table])] := by
  intro schema table b h1 h2
  have hlt : execCalls (list_tables_body schema b).snd =
      [(sqlListTables, [pyUpper schema])] := by
    unfold list_tables_body
    repeat' split
    all_goals rfl
  have hdt : execCalls (describe_table_body schema table b).snd =
      [(sqlDescribeTable, [pyUpper schema, pyUpper table])] := by
    unfold describe_table_body
    repeat' split
    all_goals rfl
  constructor
  · show execCalls (runTool b (list_tables_body schema)).snd = _
    rw [runTool_trace _ h1 h2, execCalls_append, execCalls_append, hlt]
    rfl
  · show execCalls (runTool b (describe_table_body schema table)).snd = _
    rw [runTool_trace _ h1 h2, execCalls_append, execCalls_append, hdt]
    rfl

/-- C5 witness: concrete lowercase identifiers are uppercased and bound. -/
theorem introspection_binds_witness :
    execCalls (dispatch (.listTables "payroll") okBehavior).snd =
      [(sqlListTables, [pyUpper "payroll"])] ∧
    execCalls (dispatch (.describeTable "payroll" "employees") okBehavior).snd =
      [(sqlDescribeTable, [pyUpper "payroll", pyUpper "employees"])] :=
  introspection_binds_uppercased_params "payroll" "employees" okBehavior
    ⟨rfl, rfl, rfl⟩ rfl

/-! ## Claim C6 -/

/-- C6: a `run_sql` statement with a (non-empty, hence truthy) column
descriptor and zero fetched rows yields the `Rows`-shaped success payload
with the column names and an empty row array — not an error; and a mutation
whose driver-reported rowcount is zero yields the `"0 rows affected."`
success payload — not an error. -/
theorem run_sql_zero_rows_and_zero_affected :
    (∀ (b : Behavior) (q : String) (c : ColDesc) (cs : List ColDesc),
      connOk b → b.cursorRes = .ok () → b.executeRes = .ok () →
      b.description = some (c :: cs) → b.fetchRes = .ok [] →
      b.closeCursor = .ok () → b.closeConn = .ok () →
      (dispatch (.runSql q) b).fst =
        .ok (.json (.obj [("columns", .arr (((c :: cs).map ColDesc.name).map Json.str)),
                          ("rows", .arr [])]))) ∧
    (∀ (b : Behavior) (q : String),
      connOk b → b.cursorRes = .ok () → b.executeRes = .ok () →
      b.description = none → b.rowcount = 0 → b.commitRes = .ok () →
      b.closeCursor = .ok () → b.closeConn = .ok () →
      (dispatch (.runSql q) b).fst =
        .ok (.json (.obj [("message", .str "0 rows affected.")]))) := by
  constructor
  · intro b q c cs h1 h2 hex hdesc hfetch h3 h4
    show (runTool b (run_sql_body q)).fst = _
    rw [runTool_fst_ok _ h1 h2 h3 h4]
    unfold run_sql_body
    rw [hex, hdesc, hfetch]
    rfl
  · intro b q h1 h2 hex hdesc hrc hcom h3 h4
    show (runTool b (run_sql_body q)).fst = _
    rw [runTool_fst_ok _ h1 h2 h3 h4]
    unfold run_sql_body
    rw [hex, hdesc, hcom, hrc]
    rfl

/-- C6 witness: both parts at concrete behaviors — an empty SELECT result
and a zero-row mutation. -/
theorem run_sql_zero_rows_witness :
    (dispatch (.runSql "SELECT A FROM T WHERE 1=0") bSelectEmpty).fst =
      .ok (.json (.obj [("columns", .arr ((([⟨"A"⟩] : List ColDesc).map ColDesc.name).map Json.str)),
                        ("rows", .arr [])])) ∧
    (dispatch (.runSql "DELETE FROM t WHERE 1=0") okBehavior).fst =
      .ok (.json (.obj [("message", .str "0 rows affected.")])) :=
  ⟨run_sql_zero_rows_and_zero_affected.1 bSelectEmpty "SELECT A FROM T WHERE 1=0"
      ⟨"A"⟩ [] ⟨rfl, rfl, rfl⟩ rfl rfl rfl rfl rfl rfl,
   run_sql_zero_rows_and_zero_affected.2 okBehavior "DELETE FROM t WHERE 1=0"
      ⟨rfl, rfl, rfl⟩ rfl rfl rfl rfl rfl rfl rfl⟩

/-! ## Claim C7 -/

/-- C7 counterexample: the claim says `describe_table` with zero matching
catalog columns yields a payload whose `columns` list is empty.  But the
source builds `columns` from `cursor.description` (line 93), which for the
fixed five-column introspection SELECT carries its five descriptors even when
zero rows match — the actual payload has the five descriptor names and only
`rows` is empty. -/
theorem describe_table_zero_rows_cex :
    (dispatch (.describeTable "s" "t") bDescribeEmpty).fst =
      .ok (.json (.obj [("columns", .arr [.str "COLUMN_NAME", .str "DATA_TYPE_NAME",
                          .str "LENGTH", .str "SCALE", .str "IS_NULLABLE"]),
                        ("rows", .arr [])])) ∧
    (dispatch (.describeTable "s" "t") bDescribeEmpty).fst ≠
      .ok (.json (.obj [("columns", .arr []), ("rows", .arr [])])) := by
  refine ⟨rfl, ?_⟩
  intro h
  rw [show (dispatch (.describeTable "s" "t") bDescribeEmpty).fst =
    .ok (.json (.obj [("columns", .arr [.str "COLUMN_NAME", .str "DATA_TYPE_NAME",
      .str "LENGTH", .str "SCALE", .str "IS_NULLABLE"]), ("rows", .arr [])]))
    from rfl] at h
  simp at h

/-- C7 (amended): `describe_table` with a successful execute, the query's
descriptor present, and zero fetched rows returns the success payload whose
`columns` are the descriptor names of the introspection query (five names in
practice, not the empty list) and whose `rows` list is empty — not an
error. -/
theorem describe_table_zero_rows_payload :
    ∀ (schema table : String) (b : Behavior) (ds : List ColDesc),
      connOk b → b.cursorRes = .ok () → b.executeRes = .ok () →
      b.description = some ds → b.fetchRes = .ok [] →
      b.closeCursor = .ok () → b.closeConn = .ok () →
      (dispatch (.describeTable schema table) b).fst =
        .ok (.json (.obj [("columns", .arr ((ds.map ColDesc.name).map Json.str)),
                          ("rows", .arr [])])) := by
  intro schema table b ds h1 h2 hex hdesc hfetch h3 h4
  show (runTool b (describe_table_body schema table)).fst = _
  rw [runTool_fst_ok _ h1 h2 h3 h4]
  unfold describe_table_body
  rw [hex, hdesc, hfetch]
  rfl

/-- C7 witness: the amended theorem at the concrete zero-matching-columns
behavior. -/
theorem describe_table_zero_rows_witness :
    (dispatch (.describeTable "s" "t") bDescribeEmpty).fst =
      .ok (.json (.obj [("columns",
        .arr (((bDescribeEmpty.description.getD []).map ColDesc.name).map Json.str)),
        ("rows", .arr [])])) :=
  describe_table_zero_rows_payload "s" "t" bDescribeEmpty
    [⟨"COLUMN_NAME"⟩, ⟨"DATA_TYPE_NAME"⟩, ⟨"LENGTH"⟩, ⟨"SCALE"⟩, ⟨"IS_NULLABLE"⟩]
    ⟨rfl, rfl, rfl⟩ rfl rfl rfl rfl rfl rfl

/-! ## Claim C8 -/

/-- C8 counterexample: the claim says a missing configuration file is fatal
at startup and only at startup.  But the source loads the config inside
`connect_hana()` on every tool call and performs no load at startup at all:
a missing file surfaces as a `FileNotFoundError` raised during the individual
operation. -/
theorem missing_config_fails_inside_operation :
    (dispatch .listSchemas bNoConfig).fst =
      .error (.exc ("Config file not found: " ++ configFilePath)) := rfl

/-- C8 (amended): `load_config()` runs exactly once during every invocation
of every operation (not once at startup), and when the config file is missing
the invocation raises `FileNotFoundError`, which propagates out of the tool
function rather than being caught. -/
theorem config_loaded_on_every_invocation :
    ∀ (t : ToolCall) (b : Behavior),
      countLoads (dispatch t b).snd = 1 ∧
      (b.configExists = false →
        (dispatch t b).fst =
          .error (.exc ("Config file not found: " ++ configFilePath))) := by
  intro t b
  cases t with
  | listSchemas =>
    exact ⟨countLoads_runTool b _ (countLoads_list_schemas_body b),
      fun h => runTool_fst_noConfig _ h⟩
  | listTables schema =>
    exact ⟨countLoads_runTool b _ (countLoads_list_tables_body schema b),
      fun h => runTool_fst_noConfig _ h⟩
  | describeTable schema table =>
    exact ⟨countLoads_runTool b _ (countLoads_describe_table_body schema table b),
      fun h => runTool_fst_noConfig _ h⟩
  | runSql query =>
    exact ⟨countLoads_runTool b _ (countLoads_run_sql_body query b),
      fun h => runTool_fst_noConfig _ h⟩

/-- C8 witness: the per-invocation load and the propagating failure at the
concrete missing-config behavior. -/
theorem config_loaded_witness :
    countLoads (dispatch .listSchemas bNoConfig).snd = 1 ∧
    (dispatch .listSchemas bNoConfig).fst =
      .error (.exc ("Config file not found: " ++ configFilePath)) :=
  ⟨(config_loaded_on_every_invocation .listSchemas bNoConfig).1,
   (config_loaded_on_every_invocation .listSchemas bNoConfig).2 rfl⟩

/-! ## Claim C9 -/

/-- C9: `list_schemas` against a backend returning the rows
`[("SYS",), ("PUBLIC",)]` yields exactly the JSON array
`["SYS", "PUBLIC"]` — the schema names in backend order, an ordered-list
shape with no additional fields. -/
theorem list_schemas_backend_rows_payload :
    (dispatch .listSchemas bSchemas).fst =
      .ok (.json (.arr [.str "SYS", .str "PUBLIC"])) := rfl

/-! ## Claim C10 -/

/-- C10: `run_sql` commits only on the mutation branch: when the statement
produced a (truthy) column descriptor, and likewise when `cursor.execute`
raised, no `conn.commit()` call is ever issued — the trace carries zero
commits, so the session is left uncommitted when the connection is closed. -/
theorem run_sql_no_commit_on_rows_or_error :
    ∀ (b : Behavior) (q : String), connOk b → b.cursorRes = .ok () →
      (∀ c cs, b.executeRes = .ok () → b.description = some (c :: cs) →
        countCommits (dispatch (.runSql q) b).snd = 0) ∧
      (∀ e, b.executeRes = .error e →
        countCommits (dispatch (.runSql q) b).snd = 0) := by
  intro b q h1 h2
  constructor
  · intro c cs hex hdesc
    show countCommits (runTool b (run_sql_body q)).snd = 0
    rw [runTool_trace _ h1 h2, countCommits_append, countCommits_append]
    have hbody : countCommits (run_sql_body q b).snd = 0 := by
      unfold run_sql_body
      rw [hex, hdesc]
      repeat' split
      all_goals rfl
    rw [hbody]
    rfl
  · intro e hex
    show countCommits (runTool b (run_sql_body q)).snd = 0
    rw [runTool_trace _ h1 h2, countCommits_append, countCommits_append]
    have hbody : countCommits (run_sql_body q b).snd = 0 := by
      unfold run_sql_body
      rw [hex]
      rfl
    rw [hbody]
    rfl


/-- C10 witness: no commit on a concrete empty SELECT and on a concrete
failing statement. -/
theorem run_sql_no_commit_witness :
    countCommits (dispatch (.runSql "SELECT A FROM T") bSelectEmpty).snd = 0 ∧
    countCommits (dispatch (.runSql "DELETEX") bExecFail).snd = 0 :=
  ⟨(run_sql_no_commit_on_rows_or_error bSelectEmpty "SELECT A FROM T"
      ⟨rfl, rfl, rfl⟩ rfl).1 ⟨"A"⟩ [] rfl rfl,
   (run_sql_no_commit_on_rows_or_error bExecFail "DELETEX"
      ⟨rfl, rfl, rfl⟩ rfl).2 (.exc "sql syntax error") rfl⟩

/-! ## Claim C3: correctness of the decimal-to-binary64 rounding

We first prove that `rne` really is a nearest-integer rounding, lift it to
the grid `2^s * ℤ`, and then prove that `floatOfRat` returns a representable
value that is nearest among all representable binary64 values. -/

theorem rne_le_dist (x : ℚ) (n : ℤ) : |(rne x : ℚ) - x| ≤ |(n : ℚ) - x| := by
  have hfl : ((⌊x⌋ : ℤ) : ℚ) ≤ x := Int.floor_le x
  have hfu : x < (⌊x⌋ : ℚ) + 1 := Int.lt_floor_add_one x
  have hA : ∀ m : ℤ, m ≤ ⌊x⌋ → x - ⌊x⌋ ≤ |(m : ℚ) - x| := by
    intro m hm
    have hmq : (m : ℚ) ≤ (⌊x⌋ : ℚ) := by exact_mod_cast hm
    rw [abs_sub_comm, abs_of_nonneg (by linarith)]
    linarith
  have hB : ∀ m : ℤ, ⌊x⌋ + 1 ≤ m → (⌊x⌋ : ℚ) + 1 - x ≤ |(m : ℚ) - x| := by
    intro m hm
    have hmq : ((⌊x⌋ : ℤ) : ℚ) + 1 ≤ (m : ℚ) := by exact_mod_cast hm
    rw [abs_of_nonneg (by linarith)]
    linarith
  have hn : n ≤ ⌊x⌋ ∨ ⌊x⌋ + 1 ≤ n := by omega
  unfold rne
  split_ifs with h1 h2 h3
  · rw [abs_sub_comm, abs_of_nonneg (by linarith)]
    rcases hn with h | h
    · exact hA n h
    · calc x - (⌊x⌋ : ℚ) ≤ (⌊x⌋ : ℚ) + 1 - x := by linarith
        _ ≤ |(n : ℚ) - x| := hB n h
  · have hd : |((⌊x⌋ + 1 : ℤ) : ℚ) - x| = (⌊x⌋ : ℚ) + 1 - x := by
      push_cast
      rw [abs_of_nonneg (by linarith)]
    rw [hd]
    rcases hn with h | h
    · calc (⌊x⌋ : ℚ) + 1 - x ≤ x - (⌊x⌋ : ℚ) := by linarith
        _ ≤ |(n : ℚ) - x| := hA n h
    · exact hB n h
  · have hhalf : x - (⌊x⌋ : ℚ) = 1/2 := le_antisymm (not_lt.mp h2) (not_lt.mp h1)
    rw [abs_sub_comm, abs_of_nonneg (by linarith)]
    rcases hn with h | h
    · exact hA n h
    · calc x - (⌊x⌋ : ℚ) ≤ (⌊x⌋ : ℚ) + 1 - x := by linarith
        _ ≤ |(n : ℚ) - x| := hB n h
  · have hhalf : x - (⌊x⌋ : ℚ) = 1/2 := le_antisymm (not_lt.mp h2) (not_lt.mp h1)
    have hd : |((⌊x⌋ + 1 : ℤ) : ℚ) - x| = (⌊x⌋ : ℚ) + 1 - x := by
      push_cast
      rw [abs_of_nonneg (by linarith)]
    rw [hd]
    rcases hn with h | h
    · calc (⌊x⌋ : ℚ) + 1 - x ≤ x - (⌊x⌋ : ℚ) := by linarith
        _ ≤ |(n : ℚ) - x| := hA n h
    · exact hB n h

theorem rne_half (x : ℚ) : |(rne x : ℚ) - x| ≤ 1/2 := by
  have hfl : ((⌊x⌋ : ℤ) : ℚ) ≤ x := Int.floor_le x
  have hfu : x < (⌊x⌋ : ℚ) + 1 := Int.lt_floor_add_one x
  have h1 := rne_le_dist x ⌊x⌋
  have h2 := rne_le_dist x (⌊x⌋ + 1)
  have hd1 : |((⌊x⌋ : ℤ) : ℚ) - x| = x - ⌊x⌋ := by
    rw [abs_sub_comm, abs_of_nonneg (by linarith)]
  have hd2 : |((⌊x⌋ + 1 : ℤ) : ℚ) - x| = (⌊x⌋ : ℚ) + 1 - x := by
    push_cast
    rw [abs_of_nonneg (by linarith)]
  rw [hd1] at h1
  rw [hd2] at h2
  linarith

theorem rne_intCast (n : ℤ) : rne (n : ℚ) = n := by
  unfold rne
  rw [Int.floor_intCast]
  simp

theorem rne_grid_le_dist (s : ℤ) (x : ℚ) (k : ℤ) :
    |(rne (x / 2 ^ s) : ℚ) * 2 ^ s - x| ≤ |(k : ℚ) * 2 ^ s - x| := by
  have h2 : (0 : ℚ) < 2 ^ s := by positivity
  have key : ∀ m : ℤ, (m : ℚ) * 2 ^ s - x = ((m : ℚ) - x / 2 ^ s) * 2 ^ s := by
    intro m
    field_simp
  rw [key, key, abs_mul, abs_mul, abs_of_pos h2]
  exact mul_le_mul_of_nonneg_right (rne_le_dist _ _) h2.le

theorem cast_two_pow_mul_zpow (n : ℕ) (s t : ℤ) (h : (n : ℤ) + s = t) :
    ((2 ^ n : ℤ) : ℚ) * 2 ^ s = 2 ^ t := by
  rw [Int.cast_pow]
  push_cast
  rw [← zpow_natCast (2 : ℚ) n, ← zpow_add₀ (two_ne_zero : (2 : ℚ) ≠ 0), h]

theorem floatOfRat_finite_nearest {q r : ℚ} (h : floatOfRat q = .finite r) :
    Frep r ∧ ∀ y : ℚ, Frep y → |r - q| ≤ |y - q| := by
  by_cases hq : q = 0
  · subst hq
    simp only [floatOfRat, if_pos rfl] at h
    cases h
    constructor
    · exact ⟨0, 0, by norm_num, by norm_num, by norm_num, by norm_num [maxFin]⟩
    · intro y _
      simp
  · simp only [floatOfRat, if_neg hq] at h
    set e := Int.log 2 |q| with he
    set s := max (e - 52) (-1074) with hs
    set r0 : ℚ := (rne (q / 2 ^ s) : ℚ) * 2 ^ s with hr0
    have habs : (0 : ℚ) < |q| := abs_pos.mpr hq
    have hlq : (2 : ℚ) ^ e ≤ |q| := by
      have := Int.zpow_log_le_self (b := 2) (R := ℚ) (by norm_num) habs
      rw [he]
      simpa using this
    have huq : |q| < 2 ^ (e + 1) := by
      have := Int.lt_zpow_succ_log_self (b := 2) (R := ℚ) (by norm_num) |q|
      rw [he]
      simpa using this
    have hse : e - 52 ≤ s := le_max_left _ _
    have hs74 : (-1074 : ℤ) ≤ s := le_max_right _ _
    have h2s : (0 : ℚ) < 2 ^ s := by positivity
    -- the rounded mantissa is at most 2^53 in magnitude
    have hqs : |q / 2 ^ s| < (2 : ℚ) ^ (53 : ℕ) := by
      rw [abs_div, abs_of_pos h2s, div_lt_iff₀ h2s]
      calc |q| < 2 ^ (e + 1) := huq
        _ ≤ 2 ^ (s + 53) := zpow_le_zpow_right₀ (by norm_num) (by omega)
        _ = (2 : ℚ) ^ (53 : ℕ) * 2 ^ s := by
            rw [zpow_add₀ (two_ne_zero), ← zpow_natCast (2 : ℚ) 53]
            ring
    have hmb : |rne (q / 2 ^ s)| ≤ 2 ^ 53 := by
      have h1 : |(rne (q / 2 ^ s) : ℚ) - q / 2 ^ s| ≤ 1/2 := rne_half _
      have h2 : |(rne (q / 2 ^ s) : ℚ)| ≤ |q / 2 ^ s| + 1/2 := by
        calc |(rne (q / 2 ^ s) : ℚ)|
            = |(rne (q / 2 ^ s) : ℚ) - q / 2 ^ s + q / 2 ^ s| := by ring_nf
          _ ≤ |(rne (q / 2 ^ s) : ℚ) - q / 2 ^ s| + |q / 2 ^ s| := abs_add _ _
          _ ≤ |q / 2 ^ s| + 1/2 := by linarith
      have h3 : ((|rne (q / 2 ^ s)| : ℤ) : ℚ) < ((2 ^ 53 + 1 : ℤ) : ℚ) := by
        rw [Int.cast_abs]
        push_cast
        have : ((2 : ℚ) ^ (53 : ℕ)) = 2 ^ 53 := by norm_num
        nlinarith [hqs, h2]
      have h4 : |rne (q / 2 ^ s)| < 2 ^ 53 + 1 := by exact_mod_cast h3
      omega
    -- peel the overflow guards
    by_cases hcase1 : maxFin < r0
    · rw [if_pos hcase1] at h
      exact absurd h (by simp)
    rw [if_neg hcase1] at h
    by_cases hcase2 : r0 < -maxFin
    · rw [if_pos hcase2] at h
      exact absurd h (by simp)
    rw [if_neg hcase2] at h
    -- now h : .finite r0 = .finite r
    injection h with hrr
    subst hrr
    have hrmax : |r0| ≤ maxFin := abs_le.mpr ⟨by linarith [not_lt.mp hcase2], not_lt.mp hcase1⟩
    constructor
    · -- representability of the result
      exact ⟨rne (q / 2 ^ s), s, hs74, hmb, hr0, hrmax⟩
    · -- nearest among all representable values
      rintro y ⟨m, ey, hey, hmy, hyval, hymax⟩
      rcases le_or_lt s ey with hcase | hcase
      · -- y already lies on the rounding grid 2^s * ZZ
        have hky : y = ((m * 2 ^ (ey - s).toNat : ℤ) : ℚ) * 2 ^ s := by
          rw [hyval]
          push_cast
          rw [← zpow_natCast (2 : ℚ) (ey - s).toNat, Int.toNat_of_nonneg (by omega),
            mul_assoc, ← zpow_add₀ (two_ne_zero : (2 : ℚ) ≠ 0)]
          congr 2
          omega
        rw [hky, hr0]
        exact rne_grid_le_dist s q (m * 2 ^ (ey - s).toNat)
      · -- y is strictly below the grid scale, hence |y| ≤ 2^e ≤ |q|
        have hsE : s = e - 52 := by
          rcases max_choice (e - 52) (-1074) with h1 | h1 <;> omega
        have hmyq : |(m : ℚ)| ≤ (2 : ℚ) ^ (53 : ℕ) := by
          have : ((|m| : ℤ) : ℚ) ≤ ((2 ^ 53 : ℤ) : ℚ) := by exact_mod_cast hmy
          rw [Int.cast_abs] at this
          calc |(m : ℚ)| ≤ ((2 ^ 53 : ℤ) : ℚ) := this
            _ = (2 : ℚ) ^ (53 : ℕ) := by push_cast; ring
        have hyabs : |y| ≤ 2 ^ e := by
          rw [hyval, abs_mul, abs_of_pos (show (0:ℚ) < 2 ^ ey by positivity)]
          calc |(m : ℚ)| * 2 ^ ey ≤ (2 : ℚ) ^ (53 : ℕ) * 2 ^ ey :=
                mul_le_mul_of_nonneg_right hmyq (by positivity)
            _ ≤ (2 : ℚ) ^ (53 : ℕ) * 2 ^ (e - 53) :=
                mul_le_mul_of_nonneg_left
                  (zpow_le_zpow_right₀ (by norm_num) (by omega)) (by positivity)
            _ = 2 ^ e := by
                rw [← zpow_natCast (2 : ℚ) 53, ← zpow_add₀ (two_ne_zero : (2 : ℚ) ≠ 0)]
                congr 1
                omega
        rcases lt_or_gt_of_ne hq with hneg | hpos
        · -- q < 0: the grid point -2^e separates y from q
          have hql : q ≤ -2 ^ e := by
            rw [abs_of_neg hneg] at hlq
            linarith
          have hyl : -2 ^ e ≤ y := by
            have := neg_abs_le y
            linarith [hyabs]
          have hg : ((-(2 ^ 52) : ℤ) : ℚ) * 2 ^ s = -(2 ^ e) := by
            rw [Int.cast_neg, neg_mul, cast_two_pow_mul_zpow 52 s e (by omega)]
          have hgrid := rne_grid_le_dist s q (-(2 ^ 52))
          rw [hg] at hgrid
          have h1 : |(-(2 ^ e) : ℚ) - q| = -(2 ^ e) - q := abs_of_nonneg (by linarith)
          have h2 : |y - q| = y - q := abs_of_nonneg (by linarith)
          rw [h1] at hgrid
          rw [hr0, h2]
          calc |(rne (q / 2 ^ s) : ℚ) * 2 ^ s - q| ≤ -(2 ^ e) - q := hgrid
            _ ≤ y - q := by linarith
        · -- q > 0: the grid point 2^e separates y from q
          have hql : (2 : ℚ) ^ e ≤ q := by
            rw [abs_of_pos hpos] at hlq
            exact hlq
          have hyl : y ≤ 2 ^ e := le_trans (le_abs_self y) hyabs
          have hg : (((2 ^ 52) : ℤ) : ℚ) * 2 ^ s = 2 ^ e :=
            cast_two_pow_mul_zpow 52 s e (by omega)
          have hgrid := rne_grid_le_dist s q (2 ^ 52)
          rw [hg] at hgrid
          have h1 : |(2 ^ e : ℚ) - q| = q - 2 ^ e := by
            rw [abs_sub_comm]
            exact abs_of_nonneg (by linarith)
          have h2 : |y - q| = q - y := by
            rw [abs_sub_comm]
            exact abs_of_nonneg (by linarith)
          rw [h1] at hgrid
          rw [hr0, h2]
          calc |(rne (q / 2 ^ s) : ℚ) * 2 ^ s - q| ≤ q - 2 ^ e := hgrid
            _ ≤ q - y := by linarith

theorem decVal_one : decVal 1 0 = 1 := by
  simp [decVal]

theorem floatOfRat_one : floatOfRat 1 = .finite 1 := by
  simp only [floatOfRat, if_neg (one_ne_zero : (1 : ℚ) ≠ 0)]
  have he : Int.log 2 |(1 : ℚ)| = 0 := by
    rw [abs_one, Int.log_one_right]
  rw [he]
  have hs : max ((0 : ℤ) - 52) (-1074) = -52 := by norm_num
  rw [hs]
  have hpow : (1 : ℚ) / 2 ^ (-52 : ℤ) = ((2 ^ 52 : ℤ) : ℚ) := by
    rw [zpow_neg, one_div, inv_inv]
    rw [Int.cast_pow]
    push_cast
    rw [← zpow_natCast (2 : ℚ) 52]
    norm_num
  rw [hpow, rne_intCast]
  have hr : ((2 ^ 52 : ℤ) : ℚ) * 2 ^ (-52 : ℤ) = 1 := by
    rw [cast_two_pow_mul_zpow 52 (-52) 0 (by omega)]
    norm_num
  rw [hr]
  rw [if_neg (by norm_num [maxFin]), if_neg (by norm_num [maxFin])]

theorem floatOfRat_decVal_one : floatOfRat (decVal 1 0) = .finite 1 := by
  rw [decVal_one, floatOfRat_one]

/-- Every Python value of the universe serializes successfully: the native
scalars directly, the rest through one application of `json_default`, whose
result is always native. -/
theorem serialize_total (o : PyObj) : ∃ j : Json, serialize o = .ok j := by
  cases o <;> exact ⟨_, rfl⟩

/-- C3: the result encoder is total and deterministic over every supported
value variant.  `serialize` is a total Lean function (hence deterministic),
it succeeds on every `PyObj` (encoding never fails), datetimes and dates map
to their ISO-8601 `isoformat` strings, `None` maps to JSON null, any other
non-primitive maps to its `str` text, and a `Decimal` maps to the
round-to-nearest binary64 float of its value: whenever that conversion is
finite, the produced value is representable and is nearest to the decimal's
exact value among all representable binary64 values. -/
theorem serialize_total_and_variant_map :
    (∀ o : PyObj, ∃ j : Json, serialize o = .ok j) ∧
    (∀ t : Datetime, serialize (.pyDatetime t) = .ok (.str (isoDatetime t))) ∧
    (∀ d : Date, serialize (.pyDate d) = .ok (.str (isoDate d))) ∧
    (serialize .pyNone = .ok .null) ∧
    (∀ r : String, serialize (.pyOther r) = .ok (.str r)) ∧
    (∀ m e : ℤ, serialize (.pyDecimal m e) = .ok (.num (floatOfRat (decVal m e)))) ∧
    (∀ (m e : ℤ) (r : ℚ), floatOfRat (decVal m e) = .finite r →
      Frep r ∧ ∀ y : ℚ, Frep y → |r - decVal m e| ≤ |y - decVal m e|) := by
  refine ⟨serialize_total, fun t => rfl, fun d => rfl, rfl, fun r => rfl,
    fun m e => rfl, ?_⟩
  intro m e r h
  exact floatOfRat_finite_nearest h

/-- C3 witness: the decimal `1E0` rounds to the finite float `1`, which is
representable and nearest. -/
theorem serialize_total_and_variant_map_witness :
    Frep 1 ∧ ∀ y : ℚ, Frep y → |(1 : ℚ) - decVal 1 0| ≤ |y - decVal 1 0| :=
  serialize_total_and_variant_map.2.2.2.2.2.2 1 0 1 floatOfRat_decVal_one
